import Mathlib

/-!
Verification of the video-gen pipeline core (script data model, orchestrator
retry/skip/compose logic, compositor duration reconciliation) as a shallow
embedding of the Python sources in `src/video_gen/`.

Durations are modelled as rationals (`ℚ`); file paths as `String`s built by
the same formatting the pipeline uses.  External collaborators (TTS engine,
clip generator) are modelled as oracle parameters.
-/

namespace VideoGen

/-- One scene of `models/script.py` (`class Scene`).  Field names follow the
source; `duration_seconds` is a rational standing for the Python float. -/
structure Scene where
  scene_number : Nat
  video_prompt : String
  narration_text : String
  duration_seconds : ℚ
deriving Repr, DecidableEq

/-- `models/script.py` (`class VideoScript`): title, topic, ordered scenes,
style notes and a negative prompt. -/
structure VideoScript where
  title : String
  topic : String
  scenes : List Scene
  style_notes : String
  negative_prompt : String
deriving Repr, DecidableEq

/-- The pydantic field constraints of `Scene`: `scene_number ≥ 1`,
`video_prompt` at least 10 characters, `narration_text` at least 1 character,
`duration_seconds ∈ [2, 6]`. -/
def sceneFieldsValid (s : Scene) : Bool :=
  decide (1 ≤ s.scene_number) &&
  decide (10 ≤ s.video_prompt.length) &&
  decide (1 ≤ s.narration_text.length) &&
  decide ((2 : ℚ) ≤ s.duration_seconds) &&
  decide (s.duration_seconds ≤ (6 : ℚ))

/-- Sum of scene durations, as computed by `validate_total_duration` and the
`total_duration` property. -/
def totalDuration (scenes : List Scene) : ℚ :=
  (scenes.map (fun s => s.duration_seconds)).sum

/-- The pydantic field constraints of `VideoScript` other than the model
validator: every scene's field constraints, and `3 ≤ len(scenes) ≤ 12`. -/
def scriptFieldsValid (v : VideoScript) : Bool :=
  v.scenes.all sceneFieldsValid &&
  decide (3 ≤ v.scenes.length) &&
  decide (v.scenes.length ≤ 12)

/-- `VideoScript.validate_total_duration` (`models/script.py` lines 51-62):
raises when the total is `< 15` or `> 60`, otherwise returns the script. -/
def validate_total_duration (v : VideoScript) : Except String VideoScript :=
  let total := totalDuration v.scenes
  if total < 15 then
    .error "Total duration below minimum of 15s."
  else if total > 60 then
    .error "Total duration above maximum of 60s."
  else
    .ok v

/-- Pydantic construction of a `VideoScript`: field-level validation first,
then the `mode="after"` model validator `validate_total_duration`. -/
def constructScript (v : VideoScript) : Except String VideoScript :=
  if scriptFieldsValid v then validate_total_duration v
  else .error "field validation failed"

/-- `VideoScript.model_dump()` flattened to a record of primitive fields
(its JSON object); scenes dump to their field records, i.e. the structure is
already primitive, so the dump carries the same data. -/
structure ScriptDump where
  title : String
  topic : String
  scenes : List Scene
  style_notes : String
  negative_prompt : String
deriving Repr, DecidableEq

/-- `script.model_dump()` as written by `run_pipeline` to `script.json`. -/
def model_dump (v : VideoScript) : ScriptDump :=
  { title := v.title, topic := v.topic, scenes := v.scenes,
    style_notes := v.style_notes, negative_prompt := v.negative_prompt }

/-- `VideoScript.model_validate_json` on a dumped script: rebuild the model
from the dumped fields and re-run all construction validation. -/
def model_validate (d : ScriptDump) : Except String VideoScript :=
  constructScript
    { title := d.title, topic := d.topic, scenes := d.scenes,
      style_notes := d.style_notes, negative_prompt := d.negative_prompt }

/-- Two-digit zero-padded number, the `{n:02d}` format used for artifact
names in `pipeline.py`. -/
def pad2 (n : Nat) : String :=
  if n < 10 then "0" ++ toString n else toString n

/-- `output_dir / f"scene_{n:02d}_audio.wav"` (pipeline.py line 108). -/
def audioPathFor (dir : String) (n : Nat) : String :=
  dir ++ "/scene_" ++ pad2 n ++ "_audio.wav"

/-- `output_dir / f"scene_{n:02d}_clip.mp4"` (pipeline.py line 144). -/
def clipPathFor (dir : String) (n : Nat) : String :=
  dir ++ "/scene_" ++ pad2 n ++ "_clip.mp4"

/-- `TTSResult` from `tts/base.py`: audio artifact path and the measured
duration of the produced waveform. -/
structure TTSResult where
  audio_path : String
  duration_seconds : ℚ
deriving Repr, DecidableEq

/-- Stage 2 of `run_pipeline` (lines 104-123): synthesize narration for every
scene in script order.  The engine's measured duration is an oracle
`measured : Scene → ℚ`; the audio path is fixed by the pipeline.  Synthesis
failure aborts the whole run, so the embedded stage is total. -/
def ttsStage (measured : Scene → ℚ) (dir : String) (scenes : List Scene) :
    List TTSResult :=
  scenes.map fun s =>
    { audio_path := audioPathFor dir s.scene_number
      duration_seconds := measured s }

/-- The inputs of one `generate_clip` call (pipeline.py lines 150-154). -/
structure GenInputs where
  prompt : String
  negative_prompt : String
  output_path : String
deriving Repr, DecidableEq

/-- `full_prompt = f"{script.style_notes}. {scene.video_prompt}"`
(pipeline.py line 147). -/
def fullPrompt (v : VideoScript) (s : Scene) : String :=
  v.style_notes ++ ". " ++ s.video_prompt

/-- Stage 3 of `run_pipeline` (lines 139-178): per-scene clip generation with
one retry on failure, then skip.  `clipOk n a` is the oracle telling whether
attempt `a` (1 or 2) for scene number `n` succeeds.  Returns the trace of
attempted `generate_clip` calls (scene number paired with the call's inputs)
and the surviving `clip_paths` list, in loop order. -/
def clipsStage (clipOk : Nat → Nat → Bool) (dir : String) (v : VideoScript) :
    List Scene → List (Nat × GenInputs) × List String
  | [] => ([], [])
  | s :: rest =>
    let inputs : GenInputs :=
      { prompt := fullPrompt v s
        negative_prompt := v.negative_prompt
        output_path := clipPathFor dir s.scene_number }
    let r := clipsStage clipOk dir v rest
    if clipOk s.scene_number 1 then
      ((s.scene_number, inputs) :: r.1, clipPathFor dir s.scene_number :: r.2)
    else if clipOk s.scene_number 2 then
      ((s.scene_number, inputs) :: (s.scene_number, inputs) :: r.1,
        clipPathFor dir s.scene_number :: r.2)
    else
      ((s.scene_number, inputs) :: (s.scene_number, inputs) :: r.1, r.2)

/-- `ClipWithAudio` from `compose/compositor.py`: video path, optional
narration audio path, optional target duration. -/
structure ClipWithAudio where
  video_path : String
  audio_path : Option String
  target_duration : Option ℚ
deriving Repr, DecidableEq

/-- The COMPOSE pairing of `run_pipeline` (lines 188-200): for
`i, clip_path in enumerate(clip_paths)`, audio and target duration are taken
from `tts_results[i]` when `i < len(tts_results)`, else `None`. -/
def clipsWithAudioOfRun (clip_paths : List String)
    (tts_results : List TTSResult) : List ClipWithAudio :=
  clip_paths.enum.map fun p =>
    { video_path := p.2
      audio_path := (tts_results[p.1]?).map fun r => r.audio_path
      target_duration := (tts_results[p.1]?).map fun r => r.duration_seconds }

/-- Result of `run_pipeline`: either the composed final video (with the
entry list handed to the Compositor) or, when no clips survived, the path of
the persisted script artifact. -/
inductive PipelineResult where
  | finalVideo (entries : List ClipWithAudio) (path : String)
  | scriptOnly (path : String)
deriving Repr, DecidableEq

/-- Stage 4 of `run_pipeline` (lines 185-219): `if clip_paths:` compose and
return `final.mp4`, `else` return `script.json`. -/
def composeStage (dir : String) (clip_paths : List String)
    (tts_results : List TTSResult) : PipelineResult :=
  if clip_paths.isEmpty then
    .scriptOnly (dir ++ "/script.json")
  else
    .finalVideo (clipsWithAudioOfRun clip_paths tts_results)
      (dir ++ "/final.mp4")

/-- Stages 2-4 of `run_pipeline` chained (script generation is an external
oracle; the script is given).  `skip_video = False`. -/
def runPipelineFrom (measured : Scene → ℚ) (clipOk : Nat → Nat → Bool)
    (dir : String) (v : VideoScript) : PipelineResult :=
  let tts_results := ttsStage measured dir v.scenes
  let clip_paths := (clipsStage clipOk dir v v.scenes).2
  composeStage dir clip_paths tts_results

/-- Duration produced by `Compositor._prepare_segment` (compositor.py lines
89-100) when narration audio is attached: a shorter video is slowed by
`speed_factor = video.duration / audio.duration` (new duration
`video.duration / speed_factor`); a video longer than the audio by more than
0.5 s is trimmed to `audio.duration + 0.3`; otherwise it is untouched. -/
def preparedDurationWithAudio (videoDur audioDur : ℚ) : ℚ :=
  if videoDur < audioDur then
    videoDur / (videoDur / audioDur)
  else if videoDur > audioDur + (1 / 2 : ℚ) then
    audioDur + (3 / 10 : ℚ)
  else
    videoDur

/-- Duration produced by `_prepare_segment` (lines 101-104) when no audio is
attached: trim to the target duration if longer, never stretch.  A `None`
or zero target (falsy in Python) leaves the clip untouched. -/
def preparedDurationNoAudio (videoDur : ℚ) : Option ℚ → ℚ
  | some target =>
      if target ≠ 0 then
        if videoDur > target then target else videoDur
      else videoDur
  | none => videoDur

/-- The observable state of `WanVideoGenerator`: whether `_pipe` holds a
loaded pipeline (`video/wan.py`). -/
structure WanState where
  pipe : Bool
deriving Repr, DecidableEq

/-- `WanVideoGenerator.__init__` sets `self._pipe = None`. -/
def initWanState : WanState := { pipe := false }

/-- `load_model` (wan.py lines 30-33): returns immediately when `_pipe` is
already set, otherwise performs the heavyweight load.  The `Nat` counts the
heavyweight loads actually performed. -/
def load_model (st : WanState) : WanState × Nat :=
  if st.pipe then (st, 0) else ({ pipe := true }, 1)

/-- The lazy-load preamble of `generate_clip` (wan.py lines 92-93):
`if self._pipe is None: self.load_model()`. -/
def generate_clip_load (st : WanState) : WanState × Nat :=
  if st.pipe then (st, 0) else load_model st

/-- `unload_model` (wan.py lines 113-119): clears `_pipe`. -/
def unload_model (_st : WanState) : WanState := { pipe := false }

/-- An operation on one generator instance: an explicit `load_model` call or
a `generate_clip` call (its model-loading effect). -/
inductive WanOp where
  | loadOp
  | genOp
deriving Repr, DecidableEq

/-- Run a sequence of `load_model` / `generate_clip` calls on a generator
state, counting the heavyweight loads performed. -/
def runWanOps : WanState → List WanOp → WanState × Nat
  | st, [] => (st, 0)
  | st, op :: rest =>
    let r :=
      match op with
      | .loadOp => load_model st
      | .genOp => generate_clip_load st
    let r2 := runWanOps r.1 rest
    (r2.1, r.2 + r2.2)

/-- Events observable on the clip-generation model during the CLIPS stage. -/
inductive GenEvent where
  | load
  | gen (scene attempt : Nat)
  | unload
deriving Repr, DecidableEq

/-- Outcome of one `generate_clip` call in the CLIPS loop: success; a
failure raised as an ordinary `Exception` (caught by the loop's handlers);
or an abort that the `except Exception` clauses do not catch (e.g.
`KeyboardInterrupt`), which propagates out of the stage. -/
inductive GenOutcome where
  | success
  | failure
  | abort
deriving Repr, DecidableEq

/-- Events emitted by one `generate_clip` call: the lazy load first when the
model is not yet in memory (wan.py lines 92-93), then the generation
attempt. -/
def generateClipEvents (loaded : Bool) (scene attempt : Nat) :
    List GenEvent :=
  if loaded then [.gen scene attempt] else [.load, .gen scene attempt]

/-- The CLIPS loop of `run_pipeline` (lines 139-178) as an event trace.
Returns (events, model-loaded flag, completed-normally flag).  A `failure`
on the first attempt is caught and retried once; a `failure` on the retry is
caught and the scene skipped; an `abort` propagates, ending the loop
abruptly. -/
def clipsLoopEvents (oc : Nat → Nat → GenOutcome) :
    Bool → List Scene → List GenEvent × Bool × Bool
  | loaded, [] => ([], loaded, true)
  | loaded, s :: rest =>
    let ev1 := generateClipEvents loaded s.scene_number 1
    match oc s.scene_number 1 with
    | .success =>
      let r := clipsLoopEvents oc true rest
      (ev1 ++ r.1, r.2.1, r.2.2)
    | .abort => (ev1, true, false)
    | .failure =>
      let ev2 := generateClipEvents true s.scene_number 2
      match oc s.scene_number 2 with
      | .abort => (ev1 ++ ev2, true, false)
      | _ =>
        let r := clipsLoopEvents oc true rest
        (ev1 ++ ev2 ++ r.1, r.2.1, r.2.2)

/-- The CLIPS stage including teardown: `video_gen.unload_model()` (line
180) runs straight after the loop, with no `try/finally` — so only on the
normal-completion path.  Returns the event trace and whether the stage
completed normally. -/
def clipsStageEvents (oc : Nat → Nat → GenOutcome) (scenes : List Scene) :
    List GenEvent × Bool :=
  let r := clipsLoopEvents oc false scenes
  if r.2.2 then (r.1 ++ [.unload], true) else (r.1, false)

/-- A well-formed demo scene with the given number and duration: prompt of
20 characters, non-empty narration. -/
def demoScene (n : Nat) (d : ℚ) : Scene :=
  { scene_number := n
    video_prompt := "wide shot of scene " ++ toString n
    narration_text := "narration " ++ toString n
    duration_seconds := d }

/-- A valid five-scene script (scene numbers 1-5, durations 4 s each, total
20 s). -/
def script5 : VideoScript :=
  { title := "Demo"
    topic := "demo topic"
    scenes :=
      [demoScene 1 4, demoScene 2 4, demoScene 3 4, demoScene 4 4,
        demoScene 5 4]
    style_notes := "cinematic"
    negative_prompt := "blurry" }

/-- Clip oracle for the 5-scene scenario: scene 3 fails on both attempts,
every other scene succeeds on the first attempt. -/
def clipOkSkip3 : Nat → Nat → Bool := fun n _ => decide (n ≠ 3)

/-- Measured narration durations for the demo runs: 5 s per scene, longer
than the planned 4 s (TTS output rarely matches the plan exactly). -/
def measuredDemo : Scene → ℚ := fun _ => 5

/-- A script whose scenes all carry scene number 1 but satisfy every
field-level constraint (durations 5 s each, total 15 s). -/
def badScript : VideoScript :=
  { title := "Dup"
    topic := "duplicate numbers"
    scenes := [demoScene 1 5, demoScene 1 5, demoScene 1 5]
    style_notes := "cinematic"
    negative_prompt := "blurry" }

/-- An outcome oracle under which every `generate_clip` call raises an
ordinary catchable failure. -/
def allFailuresOracle : Nat → Nat → GenOutcome := fun _ _ => .failure

/-- An outcome oracle under which every `generate_clip` call aborts with an
uncatchable interruption. -/
def allAbortsOracle : Nat → Nat → GenOutcome := fun _ _ => .abort

/-- Strict ascension of a number list (each element less than the next). -/
def strictlyAscending : List Nat → Bool
  | [] => true
  | [_] => true
  | a :: b :: rest => decide (a < b) && strictlyAscending (b :: rest)

/-- The scene-number shape the spec asserts: unique and strictly ascending
starting at 1. -/
def ascendingFrom1 (l : List Nat) : Bool :=
  strictlyAscending l && (l.head? == some 1)

/-- Whether a pydantic construction call succeeded (did not raise). -/
def exceptOk (r : Except String VideoScript) : Bool :=
  match r with
  | .ok _ => true
  | .error _ => false

/-- The scenes whose clip survives the CLIPS stage: first or second attempt
succeeded. -/
def survivingScenes (clipOk : Nat → Nat → Bool) (scenes : List Scene) :
    List Scene :=
  scenes.filter (fun s => clipOk s.scene_number 1 || clipOk s.scene_number 2)

/-- Helper: the demo script's total duration. -/
theorem script5_total : totalDuration script5.scenes = 20 := by
  norm_num [totalDuration, script5, demoScene]

/-- Helper: the demo script passes pydantic construction. -/
theorem script5_ok : constructScript script5 = .ok script5 := by
  rw [constructScript, if_pos (by decide)]
  rw [validate_total_duration]
  rw [script5_total]
  norm_num

/-- Helper: the duplicate-numbered script's total duration. -/
theorem badScript_total : totalDuration badScript.scenes = 15 := by
  norm_num [totalDuration, badScript, demoScene]

/-- Helper: the duplicate-numbered script passes pydantic construction. -/
theorem badScript_ok : constructScript badScript = .ok badScript := by
  rw [constructScript, if_pos (by decide)]
  rw [validate_total_duration]
  rw [badScript_total]
  norm_num

/-- Helper: a run of generator calls starting from pipe state `b` performs
no heavyweight load when the pipe is present, at most one otherwise. -/
theorem runWanOps_le (ops : List WanOp) :
    ∀ b : Bool, (runWanOps ⟨b⟩ ops).2 ≤ if b then 0 else 1 := by
  induction ops with
  | nil => intro b; cases b <;> simp [runWanOps]
  | cons op rest ih =>
    intro b
    have h1 := ih true
    simp only [if_true] at h1
    cases op <;> cases b <;>
      simp [runWanOps, load_model, generate_clip_load] <;> omega

/-- Helper: the CLIPS stage's surviving clip paths are exactly the clip
paths of the scenes whose first or second attempt succeeded, in order. -/
theorem clipsStage_clip_paths (clipOk : Nat → Nat → Bool) (dir : String)
    (v : VideoScript) (scenes : List Scene) :
    (clipsStage clipOk dir v scenes).2 =
      (survivingScenes clipOk scenes).map
        (fun s => clipPathFor dir s.scene_number) := by
  induction scenes with
  | nil => rfl
  | cons s rest ih =>
    by_cases h1 : clipOk s.scene_number 1
    · simp [clipsStage, survivingScenes, h1, List.filter_cons]
      simpa [survivingScenes] using ih
    · by_cases h2 : clipOk s.scene_number 2
      · simp [clipsStage, survivingScenes, h1, h2, List.filter_cons]
        simpa [survivingScenes] using ih
      · simp [clipsStage, survivingScenes, h1, h2, List.filter_cons]
        simpa [survivingScenes] using ih

/-- Helper: the CLIPS stage's attempt trace visits every scene in order
with one attempt on first-try success and two identical attempts
otherwise. -/
theorem clipsStage_trace (clipOk : Nat → Nat → Bool) (dir : String)
    (v : VideoScript) (scenes : List Scene) :
    (clipsStage clipOk dir v scenes).1 =
      scenes.flatMap (fun s =>
        let inputs : GenInputs :=
          { prompt := fullPrompt v s
            negative_prompt := v.negative_prompt
            output_path := clipPathFor dir s.scene_number }
        if clipOk s.scene_number 1 then [(s.scene_number, inputs)]
        else [(s.scene_number, inputs), (s.scene_number, inputs)]) := by
  induction scenes with
  | nil => rfl
  | cons s rest ih =>
    by_cases h1 : clipOk s.scene_number 1
    · simp [clipsStage, h1, List.flatMap_cons, ih]
    · by_cases h2 : clipOk s.scene_number 2
      · simp [clipsStage, h1, h2, List.flatMap_cons, ih]
      · simp [clipsStage, h1, h2, List.flatMap_cons, ih]

/-- Helper: one `generate_clip` call emits no unload event. -/
theorem generateClipEvents_count_unload (loaded : Bool) (n a : Nat) :
    (generateClipEvents loaded n a).count .unload = 0 := by
  cases loaded <;> simp [generateClipEvents, List.count_cons, List.count_nil]

/-- Helper: one `generate_clip` call emits a load event exactly when the
model was not yet in memory. -/
theorem generateClipEvents_count_load (loaded : Bool) (n a : Nat) :
    (generateClipEvents loaded n a).count .load = if loaded then 0 else 1 := by
  cases loaded <;> simp [generateClipEvents, List.count_cons, List.count_nil]

/-- Helper: when no call aborts, the CLIPS loop completes normally, emits no
unload itself, and loads the model at most once (never when already
loaded). -/
theorem clipsLoop_no_abort (oc : Nat → Nat → GenOutcome)
    (h : ∀ n a, oc n a ≠ .abort) (scenes : List Scene) :
    ∀ loaded : Bool,
      (clipsLoopEvents oc loaded scenes).2.2 = true ∧
      (clipsLoopEvents oc loaded scenes).1.count .unload = 0 ∧
      (clipsLoopEvents oc loaded scenes).1.count .load ≤
        (if loaded then 0 else 1) := by
  induction scenes with
  | nil => intro loaded; cases loaded <;> simp [clipsLoopEvents]
  | cons s rest ih =>
    intro loaded
    obtain ⟨ih1, ih2, ih3⟩ := ih true
    have ih3' : (clipsLoopEvents oc true rest).1.count GenEvent.load = 0 := by
      simpa using ih3
    rcases hoc1 : oc s.scene_number 1 with _ | _ | _
    · refine ⟨by simp [clipsLoopEvents, hoc1, ih1], ?_, ?_⟩
      · simp [clipsLoopEvents, hoc1, List.count_append, ih2,
          generateClipEvents_count_unload]
      · simp [clipsLoopEvents, hoc1, List.count_append, ih3',
          generateClipEvents_count_load]
    · rcases hoc2 : oc s.scene_number 2 with _ | _ | _
      · refine ⟨by simp [clipsLoopEvents, hoc1, hoc2, ih1], ?_, ?_⟩
        · simp [clipsLoopEvents, hoc1, hoc2, List.count_append, ih2,
            generateClipEvents_count_unload]
        · simp [clipsLoopEvents, hoc1, hoc2, List.count_append, ih3',
            generateClipEvents_count_load]
      · refine ⟨by simp [clipsLoopEvents, hoc1, hoc2, ih1], ?_, ?_⟩
        · simp [clipsLoopEvents, hoc1, hoc2, List.count_append, ih2,
            generateClipEvents_count_unload]
        · simp [clipsLoopEvents, hoc1, hoc2, List.count_append, ih3',
            generateClipEvents_count_load]
      · exact absurd hoc2 (h s.scene_number 2)
    · exact absurd hoc1 (h s.scene_number 1)

/-- C1: in a 5-scene run where scene 3's clip generation fails twice, the
COMPOSE stage pairs each surviving clip with `tts_results` at the clip's
position in the surviving list, not by original scene number: scene 4's
clip is paired with scene 3's narration audio (and scene 3's measured
duration), contradicting the claimed same-scene-number pairing.  This
theorem evaluates the embedded `run_pipeline` at that failing input. -/
theorem compose_pairs_by_surviving_index_at_skip3 :
    runPipelineFrom measuredDemo clipOkSkip3 "out" script5 =
      .finalVideo
        [ { video_path := clipPathFor "out" 1,
            audio_path := some (audioPathFor "out" 1),
            target_duration := some 5 },
          { video_path := clipPathFor "out" 2,
            audio_path := some (audioPathFor "out" 2),
            target_duration := some 5 },
          { video_path := clipPathFor "out" 4,
            audio_path := some (audioPathFor "out" 3),
            target_duration := some 5 },
          { video_path := clipPathFor "out" 5,
            audio_path := some (audioPathFor "out" 4),
            target_duration := some 5 } ]
        "out/final.mp4" := by rfl

/-- C3 counterexample: a 5.0 s video with 5.2 s audio is not left
unchanged — the code has no tolerance on the short side and stretches the
video to the audio duration 5.2 s. -/
theorem preparedDuration_stretches_within_claimed_tolerance :
    preparedDurationWithAudio 5 (26 / 5) = 26 / 5 ∧
      preparedDurationWithAudio 5 (26 / 5) ≠ 5 := by
  norm_num [preparedDurationWithAudio]

/-- C3 amended: duration reconciliation is deterministic with three cases:
video shorter than audio is stretched to exactly the audio duration (so
5.0 s/5.2 s yields 5.2 s, not 5.0 s); video longer than audio by more than
0.5 s is trimmed to audio + 0.3 s; video within [audio, audio + 0.5] is
unchanged. -/
theorem preparedDuration_reconciliation_cases (videoDur audioDur : ℚ)
    (hv : 0 < videoDur) :
    (videoDur < audioDur →
        preparedDurationWithAudio videoDur audioDur = audioDur) ∧
    (audioDur + 1 / 2 < videoDur →
        preparedDurationWithAudio videoDur audioDur = audioDur + 3 / 10) ∧
    (audioDur ≤ videoDur → videoDur ≤ audioDur + 1 / 2 →
        preparedDurationWithAudio videoDur audioDur = videoDur) := by
  refine ⟨fun h => ?_, fun h => ?_, fun h1 h2 => ?_⟩
  · have hv' : videoDur ≠ 0 := ne_of_gt hv
    have ha' : audioDur ≠ 0 := ne_of_gt (lt_trans hv h)
    unfold preparedDurationWithAudio
    rw [if_pos h]
    field_simp
  · unfold preparedDurationWithAudio
    rw [if_neg (by linarith), if_pos (by linarith)]
  · unfold preparedDurationWithAudio
    rw [if_neg (by linarith), if_neg (by linarith)]

/-- C3 witness: the reconciliation cases applied at video 4 s, audio 6 s
(the claim's stretch example: prepared duration 6 s). -/
theorem preparedDuration_reconciliation_cases_witness :
    (0 : ℚ) < 4 ∧
      (((4 : ℚ) < 6 → preparedDurationWithAudio 4 6 = 6) ∧
        ((6 : ℚ) + 1 / 2 < 4 →
          preparedDurationWithAudio 4 6 = 6 + 3 / 10) ∧
        ((6 : ℚ) ≤ 4 → (4 : ℚ) ≤ 6 + 1 / 2 →
          preparedDurationWithAudio 4 6 = 4)) :=
  ⟨by norm_num, preparedDuration_reconciliation_cases 4 6 (by norm_num)⟩

/-- C4: for any candidate script passing the field-level checks, pydantic
construction succeeds exactly when the total scene duration lies in
[15, 60] (bounds included); totals such as 10 or 65 are rejected by
`validate_total_duration`. -/
theorem constructScript_ok_iff_total_in_bounds (v : VideoScript)
    (hf : scriptFieldsValid v = true) :
    exceptOk (constructScript v) = true ↔
      15 ≤ totalDuration v.scenes ∧ totalDuration v.scenes ≤ 60 := by
  unfold constructScript validate_total_duration
  rw [hf]
  simp only [if_true]
  split_ifs with h1 h2
  · simp only [exceptOk]
    constructor
    · intro h; cases h
    · rintro ⟨ha, hb⟩; linarith
  · simp only [exceptOk]
    constructor
    · intro h; cases h
    · rintro ⟨ha, hb⟩; linarith
  · constructor
    · intro _; exact ⟨by linarith, by linarith⟩
    · intro _; rfl

/-- C4 witness: the duration gate applied to the concrete valid 5-scene
script (total 20 s). -/
theorem constructScript_ok_iff_total_in_bounds_witness :
    scriptFieldsValid script5 = true ∧
      (exceptOk (constructScript script5) = true ↔
        15 ≤ totalDuration script5.scenes ∧
          totalDuration script5.scenes ≤ 60) :=
  ⟨by decide, constructScript_ok_iff_total_in_bounds script5 (by decide)⟩

/-- C5 counterexample: a script whose three scenes all carry scene number 1
(violating uniqueness and strict ascension) is accepted by construction —
no validator checks the scene-number sequence. -/
theorem constructScript_accepts_duplicate_scene_numbers :
    exceptOk (constructScript badScript) = true ∧
      ascendingFrom1 (badScript.scenes.map (fun s => s.scene_number)) =
        false := by
  rw [badScript_ok]
  exact ⟨rfl, by decide⟩

/-- C5 amended: every successfully constructed script has all scene
durations in [2, 6] and all scene numbers at least 1; uniqueness and strict
ascension of scene numbers are not enforced. -/
theorem constructScript_enforces_field_bounds (v : VideoScript)
    (h : exceptOk (constructScript v) = true) :
    ∀ s ∈ v.scenes,
      1 ≤ s.scene_number ∧
        (2 : ℚ) ≤ s.duration_seconds ∧ s.duration_seconds ≤ 6 := by
  intro s hs
  have hf : scriptFieldsValid v = true := by
    by_contra hf
    simp only [Bool.not_eq_true] at hf
    simp [constructScript, hf, exceptOk] at h
  have hall : v.scenes.all sceneFieldsValid = true := by
    simp only [scriptFieldsValid, Bool.and_eq_true] at hf
    exact hf.1.1
  have hsf : sceneFieldsValid s = true := by
    rw [List.all_eq_true] at hall
    exact hall s hs
  simp only [sceneFieldsValid, Bool.and_eq_true, decide_eq_true_eq] at hsf
  exact ⟨hsf.1.1.1.1, hsf.1.2, hsf.2⟩

/-- C5 witness: the enforced field bounds, applied to the concrete valid
5-scene script. -/
theorem constructScript_enforces_field_bounds_witness :
    exceptOk (constructScript script5) = true ∧
      ∀ s ∈ script5.scenes,
        1 ≤ s.scene_number ∧
          (2 : ℚ) ≤ s.duration_seconds ∧ s.duration_seconds ≤ 6 :=
  ⟨by rw [script5_ok]; rfl,
    constructScript_enforces_field_bounds script5 (by rw [script5_ok]; rfl)⟩

/-- C6: the CLIPS stage visits every scene in order, makes one
`generate_clip` attempt on first-try success and exactly two attempts with
identical inputs (same prompt, negative prompt and output path) otherwise,
records a clip exactly for the scenes where some attempt succeeded, and
never aborts: the trace and survivor list are total functions of the scene
list. -/
theorem clipsStage_retry_once_then_skip (clipOk : Nat → Nat → Bool)
    (dir : String) (v : VideoScript) (scenes : List Scene) :
    (clipsStage clipOk dir v scenes).1 =
      scenes.flatMap (fun s =>
        let inputs : GenInputs :=
          { prompt := fullPrompt v s
            negative_prompt := v.negative_prompt
            output_path := clipPathFor dir s.scene_number }
        if clipOk s.scene_number 1 then [(s.scene_number, inputs)]
        else [(s.scene_number, inputs), (s.scene_number, inputs)]) ∧
    (clipsStage clipOk dir v scenes).2 =
      (survivingScenes clipOk scenes).map
        (fun s => clipPathFor dir s.scene_number) :=
  ⟨clipsStage_trace clipOk dir v scenes,
    clipsStage_clip_paths clipOk dir v scenes⟩

/-- C7: the run composes a final video exactly when at least one clip
survived the CLIPS stage; with zero surviving clips it degrades to
returning the persisted script artifact path, producing no video. -/
theorem runPipeline_composes_iff_clips_survive (measured : Scene → ℚ)
    (clipOk : Nat → Nat → Bool) (dir : String) (v : VideoScript) :
    ((∃ entries p,
        runPipelineFrom measured clipOk dir v = .finalVideo entries p) ↔
      (clipsStage clipOk dir v v.scenes).2 ≠ []) ∧
    ((clipsStage clipOk dir v v.scenes).2 = [] →
      runPipelineFrom measured clipOk dir v =
        .scriptOnly (dir ++ "/script.json")) := by
  constructor
  · constructor
    · rintro ⟨e, p, hp⟩ hnil
      unfold runPipelineFrom composeStage at hp
      rw [hnil] at hp
      simp at hp
    · intro h
      unfold runPipelineFrom composeStage
      rcases hcp : (clipsStage clipOk dir v v.scenes).2 with _ | ⟨a, l⟩
      · exact absurd hcp h
      · exact ⟨_, _, rfl⟩
  · intro h
    unfold runPipelineFrom composeStage
    rw [h]
    rfl

/-- C7 witness: with an oracle failing every attempt, no clip survives and
the concrete run returns the script artifact path. -/
theorem runPipeline_composes_iff_clips_survive_witness :
    (clipsStage (fun _ _ => false) "out" script5 script5.scenes).2 = [] ∧
      runPipelineFrom measuredDemo (fun _ _ => false) "out" script5 =
        .scriptOnly ("out" ++ "/script.json") :=
  ⟨rfl,
    (runPipeline_composes_iff_clips_survive measuredDemo (fun _ _ => false)
      "out" script5).2 rfl⟩

/-- C8 counterexample: when the first `generate_clip` call aborts with an
uncatchable interruption, the CLIPS stage ends without ever calling
`unload_model` (there is no try/finally around the loop), refuting the
claim that the unload happens on every execution path including early
abort. -/
theorem clipsStage_abort_skips_unload :
    (clipsStageEvents allAbortsOracle [demoScene 1 4]).1.count .unload = 0 ∧
      (clipsStageEvents allAbortsOracle [demoScene 1 4]).2 = false := by
  constructor <;> rfl

/-- C8 amended: the model is loaded lazily inside the first `generate_clip`
call rather than before the loop; whenever every per-scene outcome is an
ordinary catchable failure or success — no matter how many scenes are
skipped — the loop completes normally, the model is loaded at most once,
and `unload_model` runs exactly once after the loop; an uncatchable abort
escaping the loop skips the unload. -/
theorem clipsStage_unloads_once_without_abort (oc : Nat → Nat → GenOutcome)
    (scenes : List Scene) (h : ∀ n a, oc n a ≠ .abort) :
    (clipsStageEvents oc scenes).2 = true ∧
    (clipsStageEvents oc scenes).1.count .unload = 1 ∧
    (clipsStageEvents oc scenes).1.count .load ≤ 1 := by
  obtain ⟨hc, hu, hl⟩ := clipsLoop_no_abort oc h scenes false
  have hl' : (clipsLoopEvents oc false scenes).1.count GenEvent.load ≤ 1 := by
    simpa using hl
  refine ⟨?_, ?_, ?_⟩
  · simp [clipsStageEvents, hc]
  · simp [clipsStageEvents, hc, List.count_append, hu]
  · simp [clipsStageEvents, hc, List.count_append]
    omega

/-- C8 witness: the load/unload discipline on the concrete 5-scene script
with every attempt failing catchably (all scenes skipped). -/
theorem clipsStage_unloads_once_without_abort_witness :
    (∀ n a, allFailuresOracle n a ≠ GenOutcome.abort) ∧
      ((clipsStageEvents allFailuresOracle script5.scenes).2 = true ∧
        (clipsStageEvents allFailuresOracle script5.scenes).1.count
          .unload = 1 ∧
        (clipsStageEvents allFailuresOracle script5.scenes).1.count
          .load ≤ 1) :=
  ⟨fun _ _ h => GenOutcome.noConfusion h,
    clipsStage_unloads_once_without_abort allFailuresOracle script5.scenes
      (fun _ _ h => GenOutcome.noConfusion h)⟩

/-- C9: persisting a valid script with `model_dump` and reloading it with
`model_validate` yields the identical script, revalidated through the same
construction checks (serialization round trip). -/
theorem script_dump_validate_round_trip (v : VideoScript)
    (h : constructScript v = .ok v) :
    model_validate (model_dump v) = .ok v := h

/-- C9 witness: the round trip on the concrete valid 5-scene script. -/
theorem script_dump_validate_round_trip_witness :
    constructScript script5 = .ok script5 ∧
      model_validate (model_dump script5) = .ok script5 :=
  ⟨script5_ok, script_dump_validate_round_trip script5 script5_ok⟩

/-- C10: `load_model` on an already-loaded generator is the identity and
performs no load; `generate_clip` loads lazily on first use; and any
sequence of `load_model` / `generate_clip` calls on a freshly constructed
generator performs at most one heavyweight load. -/
theorem wan_load_idempotent_and_at_most_once :
    load_model { pipe := true } = ({ pipe := true }, 0) ∧
    generate_clip_load initWanState = ({ pipe := true }, 1) ∧
    ∀ ops : List WanOp, (runWanOps initWanState ops).2 ≤ 1 := by
  refine ⟨rfl, rfl, fun ops => ?_⟩
  have := runWanOps_le ops false
  simpa [initWanState] using this

end VideoGen
